import Mathlib

/-!
Shallow embedding of the Solana Actions example repository
(`src/app/api/actions/memo/route.ts`, `src/app/api/actions/transfer-sol/route.ts`,
`src/app/api/actions/transfer-sol/const.ts`).

JavaScript numbers are modelled exactly, as unnormalized fractions
(`Frac`, an integer numerator over a positive power-of-ten-style natural
denominator), wrapped in `Option` where `none` stands for `NaN` (the only
non-finite value the embedded code can produce); comparisons with `NaN` are
`false` and arithmetic with `NaN` yields `NaN`, exactly as in JS.  Network
effects (the Solana RPC connection) are modelled as a pure oracle record
`Rpc`; the one unbounded loop of the code (signature paging) takes a fuel
argument and returns `none` on fuel exhaustion, standing for divergence.
-/

set_option maxRecDepth 100000

namespace SolanaActions

/-- An exact JS numeric value as an unnormalized fraction.  Every value the
embedded code builds has a positive denominator (a power of ten or a product
of such), so ordering by cross-multiplication below is faithful. -/
structure Frac where
  num : Int
  den : Nat
deriving DecidableEq, Repr

/-- Embed an integer as a `Frac`. -/
def intToFrac (n : Int) : Frac := ⟨n, 1⟩

/-- A JavaScript number restricted to the values this code can produce:
`some f` is the finite value `f.num / f.den`, `none` is `NaN`. -/
abbrev JsNum := Option Frac

/-- JS multiplication: `NaN` is absorbing. -/
def jsMul (a b : JsNum) : JsNum :=
  match a, b with
  | some x, some y => some ⟨x.num * y.num, x.den * y.den⟩
  | _, _ => none

/-- JS `<` (by cross-multiplication; denominators are positive for every
value the embedded code builds): any comparison involving `NaN` is false. -/
def jsLt (a b : JsNum) : Bool :=
  match a, b with
  | some x, some y => decide (x.num * (y.den : Int) < y.num * (x.den : Int))
  | _, _ => false

/-- JS `<=`: any comparison involving `NaN` is false. -/
def jsLe (a b : JsNum) : Bool :=
  match a, b with
  | some x, some y => decide (x.num * (y.den : Int) ≤ y.num * (x.den : Int))
  | _, _ => false

/-- Decimal digit run to a natural number. -/
def digitsToNat (l : List Char) : Nat :=
  l.foldl (fun acc c => acc * 10 + (c.toNat - 48)) 0

/-- Model of the JavaScript `parseFloat` builtin, restricted to the decimal
numerals (optional sign, integer part, optional fraction) that this
repository's inputs exercise; exponents and `Infinity` are not modelled.
Like JS `parseFloat`, it parses the longest numeric prefix after skipping
leading whitespace and returns `NaN` when no digit is found. -/
def parseFloat (s : String) : JsNum :=
  let cs := s.data.dropWhile (fun c => c = ' ' || c = '\t' || c = '\n' || c = '\r')
  let signAndRest : Int × List Char :=
    match cs with
    | '-' :: rest => (-1, rest)
    | '+' :: rest => (1, rest)
    | _ => (1, cs)
  let intPart := signAndRest.2.takeWhile Char.isDigit
  let afterInt := signAndRest.2.dropWhile Char.isDigit
  let fracPart :=
    match afterInt with
    | '.' :: r => r.takeWhile Char.isDigit
    | _ => []
  if intPart = [] && fracPart = [] then none
  else
    some ⟨signAndRest.1 * (digitsToNat intPart * 10 ^ fracPart.length + digitsToNat fracPart),
      10 ^ fracPart.length⟩

/-- Simplified rendering of a JS number into a string (used only to build the
human-readable success message of the transfer provider; no claim depends on
its exact output). -/
def jsNumToString (a : JsNum) : String :=
  match a with
  | none => "NaN"
  | some f => if f.den = 1 then toString f.num else toString f.num ++ "/" ++ toString f.den

/-- The base58 alphabet used by Solana public keys (`@solana/web3.js`). -/
def base58Chars : List Char :=
  "123456789ABCDEFGHJKLMNPQRSTUVWXYZabcdefghijkmnopqrstuvwxyz".data

/-- Whether a character belongs to the base58 alphabet. -/
def isBase58Char (c : Char) : Bool := base58Chars.contains c

/-- Value of a base58 digit (only meaningful on alphabet members). -/
def base58CharVal (c : Char) : Nat := base58Chars.findIdx (fun x => x = c)

/-- Big-endian base58 digit run to a natural number. -/
def base58ToNat (cs : List Char) : Nat :=
  cs.foldl (fun acc c => acc * 58 + base58CharVal c) 0

/-- Number of base-256 digits of `n`, fuel-bounded so that it reduces in the
kernel; `fuel` must be at least the digit count (callers pass the base58
string length, which always suffices since 58 < 256). -/
def byteLenAux : Nat → Nat → Nat
  | 0, _ => 0
  | fuel + 1, n => if n = 0 then 0 else byteLenAux fuel (n / 256) + 1

/-- Model of the `@solana/web3.js` `PublicKey` constructor's base58 check:
the byte length of the base58 decoding of `s` (leading `'1'` characters are
zero bytes), or `none` when `s` contains a character outside the alphabet. -/
def base58DecodedLen (s : String) : Option Nat :=
  let cs := s.data
  if cs.all isBase58Char then
    let zeros := (cs.takeWhile (fun c => c = '1')).length
    let rest := cs.dropWhile (fun c => c = '1')
    some (zeros + byteLenAux rest.length (base58ToNat rest))
  else none

/-- Model of `new PublicKey(s)` succeeding: the string is base58 and decodes
to exactly 32 bytes. A `PublicKey` is then represented by its canonical
base58 string itself (base58 decode/encode is a bijection on such strings,
so `toBase58()` is the identity in this model). -/
def isValidPubkeyString (s : String) : Bool :=
  base58DecodedLen s == some 32

/-- Whether `needle` occurs as a contiguous run inside `haystack` (model of
the JS `String.prototype.includes` used on log lines). -/
def listInfix (needle : List Char) : List Char → Bool
  | [] => needle.isEmpty
  | c :: rest => needle.isPrefixOf (c :: rest) || listInfix needle rest

/-- JS `haystack.includes(needle)`. -/
def strIncludes (haystack needle : String) : Bool :=
  listInfix needle.data haystack.data

/-- One entry of a `getSignaturesForAddress` page: the signature string and
the optional `blockTime` (seconds since epoch; `none` models a missing or
null `blockTime`). -/
structure SigInfo where
  signature : String
  blockTime : Option Int
deriving DecidableEq, Repr

/-- Placeholder used only as the default of `List.getLastD` on pages the
code has already checked to be nonempty. -/
def dummySig : SigInfo := ⟨"", none⟩

/-- Pure oracle for the Solana RPC `Connection`.
`pages` maps the `before` cursor of a `getSignaturesForAddress` call (the
`until` bound and `limit: 100` are fixed within one scan) to the returned
page; `txLogs` maps a signature to the `meta.logMessages` of its parsed
transaction, with `none` covering a null transaction, null `meta`, or
absent `logMessages`; `latestBlockhash` models `getLatestBlockhash`; and
`minBalance` models `getMinimumBalanceForRentExemption(0)` (an integer
lamport count). -/
structure Rpc where
  pages : Option String → List SigInfo
  txLogs : String → Option (List String)
  latestBlockhash : String
  minBalance : Int

/-- `LAMPORTS_PER_SOL` from `@solana/web3.js`. -/
def LAMPORTS_PER_SOL : Frac := intToFrac 1000000000

/-- `DEFAULT_SOL_ADDRESS` from `transfer-sol/const.ts` (a devnet wallet). -/
def DEFAULT_SOL_ADDRESS : String := "AEzZqXyPxWJrjrauScDWMyewnWhv6XwmwqGdXD5vDVd4"

/-- `DEFAULT_SOL_AMOUNT` from `transfer-sol/const.ts` (`0.1`). -/
def DEFAULT_SOL_AMOUNT : Frac := ⟨1, 10⟩

/-- The instructions the two handlers can place in a transaction. -/
inductive Instruction where
  | computeBudgetSetPrice (microLamports : Frac)
  | memo (data : String) (keys : List String)
  | systemTransfer (fromPubkey toPubkey : String) (lamports : JsNum)
deriving DecidableEq, Repr

/-- Whether an instruction targets the memo program. -/
def Instruction.isMemoInstr : Instruction → Bool
  | .memo _ _ => true
  | _ => false

/-- A `@solana/web3.js` `Transaction` under construction. -/
structure Transaction where
  instructions : List Instruction
  feePayer : Option String
  recentBlockhash : Option String
deriving DecidableEq, Repr

/-- The `ActionPostResponse` envelope (`@solana/actions`): the serialized
draft is represented by the draft itself. -/
structure ActionPostResponse where
  transaction : Transaction
  message : String
deriving DecidableEq, Repr

/-- Model of `createPostResponse({fields: {transaction, message}})`: it
serializes the draft into the wire envelope (the library requires the draft
to contain at least one non-memo instruction). -/
def createPostResponse (transaction : Transaction) (message : String) : ActionPostResponse :=
  ⟨transaction, message⟩

/-- One named input parameter of a linked action. -/
structure ActionParameter where
  name : String
  label : String
  required : Bool
deriving DecidableEq, Repr

/-- One entry of `links.actions` in an `ActionGetResponse`. -/
structure ActionLinkedAction where
  label : String
  href : String
  parameters : List ActionParameter
deriving DecidableEq, Repr

/-- The `ActionGetResponse` metadata payload. -/
structure ActionGetResponse where
  title : String
  icon : String
  description : String
  label : String
  links : Option (List ActionLinkedAction)
deriving DecidableEq, Repr

/-- The body of an HTTP response produced by a handler. -/
inductive RespBody where
  | text (s : String)
  | postPayload (p : ActionPostResponse)
  | getPayload (p : ActionGetResponse)
deriving DecidableEq, Repr

/-- An HTTP response: status, body, and whether the `ACTIONS_CORS_HEADERS`
constant was attached as the response headers (every return site of the
source passes headers explicitly, so a `Bool` records which constant). -/
structure HttpResponse where
  status : Nat
  body : RespBody
  cors : Bool
deriving DecidableEq, Repr

/-- The transaction draft carried by a response, when the response is a
success envelope (exactly the drafts handed to `createPostResponse`). -/
def HttpResponse.draftOf (r : HttpResponse) : Option Transaction :=
  match r.body with
  | .postPayload p => some p.transaction
  | _ => none

/-- The `while (true)` paging loop of `checkForMessage`
(`memo/route.ts` lines 38-51), fuel-bounded.  Each iteration requests the
page at the current `before` cursor; an empty page stops the loop; otherwise
the page's signatures are appended to the accumulator, the cursor advances
to the page's last signature, and the loop stops when
`(last.blockTime ?? 0) * 1000 < twentyFourHoursAgo.getTime()` — i.e. when
the oldest entry's effective timestamp is strictly before the window start.
Returns the accumulated signatures together with the number of pages
requested, or `none` when the fuel runs out (the JS loop would still be
running). -/
def pageLoop (pages : Option String → List SigInfo) (windowStartMs : Int) :
    Nat → Option String → List String → Option (List String × Nat)
  | 0, _, _ => none
  | fuel + 1, cursor, acc =>
    if pages cursor = [] then some (acc, 1)
    else if ((pages cursor).getLastD dummySig).blockTime.getD 0 * 1000 < windowStartMs then
      some (acc ++ (pages cursor).map SigInfo.signature, 1)
    else
      match pageLoop pages windowStartMs fuel
          (some ((pages cursor).getLastD dummySig).signature)
          (acc ++ (pages cursor).map SigInfo.signature) with
      | none => none
      | some (res, n) => some (res, n + 1)

/-- The batching of `for (let i = 0; i < allSignatures.length; i += batchSize)`
with `slice(i, i + batchSize)`, fuel-bounded by the list length (each step
consumes at least one element whenever `batchSize > 0`; the code only ever
uses `batchSize = 100`). -/
def chunkListAux : Nat → Nat → List String → List (List String)
  | 0, _, _ => []
  | fuel + 1, batchSize, l =>
    if l = [] then []
    else l.take batchSize :: chunkListAux fuel batchSize (l.drop batchSize)

/-- Split a signature list into batches of `batchSize`. -/
def chunkList (batchSize : Nat) (l : List String) : List (List String) :=
  chunkListAux l.length batchSize l

/-- `tx?.meta?.logMessages?.some(log => log.includes(message))` for one
parsed transaction. -/
def txMatches (logs : Option (List String)) (message : String) : Bool :=
  match logs with
  | none => false
  | some ls => ls.any (fun log => strIncludes log message)

/-- `checkForMessage` (`memo/route.ts` lines 23-70): validate the target
public key (`new PublicKey` throws on an invalid string, and the function's
own `catch` rethrows, so the error propagates to the caller), page through
the last 24 hours of signatures, then scan the parsed transactions batch by
batch for the marker string.  The outer `Option` is fuel exhaustion of the
paging loop; the `Except` is a thrown JS error. -/
def checkForMessage (rpc : Rpc) (nowMs : Int) (accountPublicKey : String)
    (message : String) (batchSize : Nat) (fuel : Nat) : Option (Except String Bool) :=
  if isValidPubkeyString accountPublicKey then
    let windowStartMs := nowMs - 24 * 60 * 60 * 1000
    match pageLoop rpc.pages windowStartMs fuel none [] with
    | none => none
    | some (allSignatures, _) =>
      some (.ok ((chunkList batchSize allSignatures).any
        (fun batch => batch.any (fun s => txMatches (rpc.txLogs s) message))))
  else some (.error "Invalid public key input")

/-- The payload choice of the memo `POST` (`memo/route.ts` lines 118-128):
`found ? "second message" : "initial message"`, with the surrounding
`try`/`catch` falling back to `"initial message"` when the scan threw. -/
def chooseMemoPayload (scanResult : Except String Bool) : String :=
  match scanResult with
  | .ok true => "second message"
  | .ok false => "initial message"
  | .error _ => "initial message"

/-- Model of `new URL(path, origin).toString()` for an absolute path under a
well-formed origin: the origin followed by the path. -/
def urlFromOrigin (origin path : String) : String := origin ++ path

/-- The memo provider's `GET` handler (`memo/route.ts` lines 80-91), as a
function of the request's origin (the only part of the request it reads). -/
def memoGET (origin : String) : HttpResponse :=
  ⟨200, .getPayload
    ⟨"Actions Example - Simple On-chain Memo",
     urlFromOrigin origin "/bun_blink.webp",
     "Send a message on-chain using a Memo",
     "Send Memo",
     none⟩,
   true⟩

/-- The memo provider's `POST` handler (`memo/route.ts` lines 97-172), given
an already-parsed request body's `account` field.  Validates the account
(invalid → 400 `Invalid "account" provided`), runs `checkForMessage` against
the hardcoded literal target `'YOUR_ACCOUNT_OR_PROGRAM_PUBLIC_KEY'` with
marker `'initial message'` (recovering from a thrown scan error), then
builds the compute-budget + memo draft, sets the fee payer and recent
blockhash, and returns the serialized envelope.  `none` is divergence of the
paging loop. -/
def memoPOST (rpc : Rpc) (nowMs : Int) (bodyAccount : String) (fuel : Nat) :
    Option HttpResponse :=
  if isValidPubkeyString bodyAccount then
    match checkForMessage rpc nowMs "YOUR_ACCOUNT_OR_PROGRAM_PUBLIC_KEY"
        "initial message" 100 fuel with
    | none => none
    | some scanResult =>
      let messageResult := chooseMemoPayload scanResult
      let transaction : Transaction :=
        { instructions :=
            [.computeBudgetSetPrice (intToFrac 1000),
             .memo messageResult []],
          feePayer := some bodyAccount,
          recentBlockhash := some rpc.latestBlockhash }
      some ⟨200, .postPayload (createPostResponse transaction "Post this memo on-chain"), true⟩
  else some ⟨400, .text "Invalid \"account\" provided", true⟩

/-- The query string of a request to the transfer provider, as the results
of `searchParams.get("to")` and `searchParams.get("amount")` (`none` when
the parameter is absent). -/
structure Query where
  toParam : Option String
  amountParam : Option String
deriving DecidableEq, Repr

/-- `validatedQueryParams` (`transfer-sol/route.ts` lines 209-235).  A
present but empty parameter is falsy in JS, so it falls back to the default
exactly like an absent one.  An invalid `to` throws
`"Invalid input query parameter: to"`; a present nonempty `amount` is parsed
with `parseFloat`, and the `amount <= 0` check (false on `NaN`) throws
`"Invalid input query parameter: amount"`. -/
def validatedQueryParams (q : Query) : Except String (JsNum × String) :=
  let toRes : Except String String :=
    match q.toParam with
    | none => .ok DEFAULT_SOL_ADDRESS
    | some t =>
      if t = "" then .ok DEFAULT_SOL_ADDRESS
      else if isValidPubkeyString t then .ok t
      else .error "Invalid input query parameter: to"
  match toRes with
  | .error e => .error e
  | .ok toPubkey =>
    let amount : JsNum :=
      match q.amountParam with
      | none => some DEFAULT_SOL_AMOUNT
      | some a => if a = "" then some DEFAULT_SOL_AMOUNT else parseFloat a
    if jsLe amount (some (intToFrac 0)) then .error "Invalid input query parameter: amount"
    else .ok (amount, toPubkey)

/-- The `links.actions` array of the transfer provider's metadata
(`transfer-sol/route.ts` lines 92-116). -/
def transferActions (baseHref : String) : List ActionLinkedAction :=
  [⟨"Send 1 SOL", baseHref ++ "&amount=1", []⟩,
   ⟨"Send 5 SOL", baseHref ++ "&amount=5", []⟩,
   ⟨"Send 10 SOL", baseHref ++ "&amount=10", []⟩,
   ⟨"Send SOL", baseHref ++ "&amount=\x7bamount\x7d",
     [⟨"amount", "Enter the amount of SOL to send", true⟩]⟩]

/-- The transfer provider's metadata payload for a given origin and
(validated) destination. -/
def transferMetadata (origin toPubkey : String) : ActionGetResponse :=
  let baseHref := urlFromOrigin origin ("/api/actions/transfer-sol?to=" ++ toPubkey)
  ⟨"Actions Example - Transfer Native SOL",
   urlFromOrigin origin "/bun_blink.webp",
   "Transfer SOL to another Solana wallet",
   "Transfer",
   some (transferActions baseHref)⟩

/-- The transfer provider's `GET` handler (`transfer-sol/route.ts` lines
76-132), as a function of the request's origin and query.  A string thrown
by `validatedQueryParams` is caught at the handler boundary and becomes the
400 body. -/
def transferGET (origin : String) (q : Query) : HttpResponse :=
  match validatedQueryParams q with
  | .error e => ⟨400, .text e, true⟩
  | .ok (_, toPubkey) => ⟨200, .getPayload (transferMetadata origin toPubkey), true⟩

/-- The transfer provider's `POST` handler (`transfer-sol/route.ts` lines
138-207), given the query and the already-parsed body's `account` field.
Query validation runs first (a thrown string becomes the 400 body), then the
account check, then the rent-exemption precondition
`amount * LAMPORTS_PER_SOL < minimumBalance` (a thrown string, caught at the
handler boundary), and finally the single-transfer draft is built and
serialized. -/
def transferPOST (rpc : Rpc) (q : Query) (bodyAccount : String) : HttpResponse :=
  match validatedQueryParams q with
  | .error e => ⟨400, .text e, true⟩
  | .ok (amount, toPubkey) =>
    if isValidPubkeyString bodyAccount then
      if jsLt (jsMul amount (some LAMPORTS_PER_SOL)) (some (intToFrac rpc.minBalance)) then
        ⟨400, .text ("account may not be rent exempt: " ++ toPubkey), true⟩
      else
        let transaction : Transaction :=
          { instructions :=
              [.systemTransfer bodyAccount toPubkey (jsMul amount (some LAMPORTS_PER_SOL))],
            feePayer := some bodyAccount,
            recentBlockhash := some rpc.latestBlockhash }
        ⟨200, .postPayload (createPostResponse transaction
          ("Send " ++ jsNumToString amount ++ " SOL to " ++ toPubkey)), true⟩
    else ⟨400, .text "Invalid \"account\" provided", true⟩

/-! ### Concrete fixtures used by witnesses and counterexamples -/

/-- The system program address: 32 `'1'` characters, a valid public key of
32 zero bytes. -/
def sysAddr : String := "11111111111111111111111111111111"

/-- A benign RPC oracle: empty history, zero minimum balance. -/
def rpcZero : Rpc := ⟨fun _ => [], fun _ => none, "FIXEDBLOCKHASH", 0⟩

/-- An RPC oracle whose reported minimum balance (`10^18` lamports) exceeds
any small transfer. -/
def rpcBig : Rpc := ⟨fun _ => [], fun _ => none, "FIXEDBLOCKHASH", 1000000000000000000⟩

/-- Page oracle whose first page's only (hence oldest) entry lacks a
`blockTime`, while a further nonempty page of recent signatures exists
behind it. -/
def pagesMissingTime : Option String → List SigInfo := fun cursor =>
  match cursor with
  | none => [⟨"sig1", none⟩]
  | some s => if s = "sig1" then [⟨"sig2", some 113600⟩] else []

/-- Page oracle whose first page's only entry sits exactly on the window
boundary (`blockTime * 1000 = windowStartMs` for the window start used with
it below), with an empty page behind it. -/
def pagesBoundary : Option String → List SigInfo := fun cursor =>
  match cursor with
  | none => [⟨"s1", some 86400⟩]
  | some _ => []

/-! ### Claim C1 -/

/-- C1 counterexample: with window start `113600000` ms, the first page's
only signature lacks a `blockTime` and a further nonempty page exists,
yet the paging loop stops after that first page (one page requested, the
second page's signature never accumulated) — it does not continue
requesting further pages as the claim states. -/
theorem missingBlockTimeCounterexample :
    ((pagesMissingTime none).getLastD dummySig).blockTime = none
    ∧ pagesMissingTime (some "sig1") ≠ []
    ∧ pageLoop pagesMissingTime 113600000 5 none [] = some (["sig1"], 1) := by
  refine ⟨rfl, by decide, by decide⟩

/-- C1 (amended): in `checkForMessage`'s paging loop, a page whose last
(oldest) signature lacks a `blockTime` is treated as having timestamp `0`
(`blockTime ?? 0`), which is strictly before the window start whenever the
window start is positive (always the case for a real clock), so the loop
STOPS after that page instead of continuing. -/
theorem missingBlockTimeStops (pages : Option String → List SigInfo)
    (windowStartMs : Int) (fuel : Nat) (cursor : Option String) (acc : List String)
    (hne : pages cursor ≠ [])
    (hbt : ((pages cursor).getLastD dummySig).blockTime = none)
    (hpos : 0 < windowStartMs) :
    pageLoop pages windowStartMs (fuel + 1) cursor acc =
      some (acc ++ (pages cursor).map SigInfo.signature, 1) := by
  simp only [pageLoop]
  rw [if_neg hne, hbt]
  simp only [Option.getD_none, zero_mul]
  rw [if_pos hpos]

/-- C1 witness: the amended statement applied to the concrete oracle. -/
theorem missingBlockTimeStopsWitness :
    pageLoop pagesMissingTime 113600000 1 none [] = some ([] ++ (pagesMissingTime none).map SigInfo.signature, 1) :=
  missingBlockTimeStops pagesMissingTime 113600000 0 none [] (by decide) rfl (by decide)

/-! ### Claim C4 -/

/-- C4 counterexample: with window start `86400000` ms, the first page's
oldest signature has `blockTime * 1000` exactly equal to the window start,
and the loop does NOT terminate after that page: it requests a second page
(two pages requested in total), because the source's stop test is the
strict `<`. -/
theorem boundaryTimestampCounterexample :
    ((pagesBoundary none).getLastD dummySig).blockTime.getD 0 * 1000 = 86400000
    ∧ pageLoop pagesBoundary 86400000 5 none [] = some (["s1"], 2) := by
  refine ⟨by decide, by decide⟩

/-- C4 (amended): one step of the paging loop stops accumulating exactly
when the page returns zero results, or when the oldest signature's
effective timestamp (`blockTime ?? 0`, in ms) is STRICTLY before the window
start; at a timestamp equal to the boundary (or any timestamp not strictly
before it) the loop requests a further page. -/
theorem pageLoopStopCharacterization (pages : Option String → List SigInfo)
    (windowStartMs : Int) (fuel : Nat) (cursor : Option String) (acc : List String) :
    (pages cursor = [] → pageLoop pages windowStartMs (fuel + 1) cursor acc = some (acc, 1))
    ∧ (pages cursor ≠ [] →
        ((pages cursor).getLastD dummySig).blockTime.getD 0 * 1000 < windowStartMs →
        pageLoop pages windowStartMs (fuel + 1) cursor acc =
          some (acc ++ (pages cursor).map SigInfo.signature, 1))
    ∧ (pages cursor ≠ [] →
        ¬ ((pages cursor).getLastD dummySig).blockTime.getD 0 * 1000 < windowStartMs →
        pageLoop pages windowStartMs (fuel + 1) cursor acc =
          (pageLoop pages windowStartMs fuel
            (some ((pages cursor).getLastD dummySig).signature)
            (acc ++ (pages cursor).map SigInfo.signature)).map (fun p => (p.1, p.2 + 1))) := by
  refine ⟨fun hemp => ?_, fun hne hlt => ?_, fun hne hge => ?_⟩
  · simp only [pageLoop]
    rw [if_pos hemp]
  · simp only [pageLoop]
    rw [if_neg hne, if_pos hlt]
  · simp only [pageLoop]
    rw [if_neg hne, if_neg hge]
    cases pageLoop pages windowStartMs fuel
        (some ((pages cursor).getLastD dummySig).signature)
        (acc ++ (pages cursor).map SigInfo.signature) with
    | none => rfl
    | some p => cases p with
      | mk res n => rfl

/-- C4 witness: the boundary-equal branch of the characterization applied to
the concrete oracle (the loop requests a further page). -/
theorem pageLoopStopCharacterizationWitness :
    pageLoop pagesBoundary 86400000 1 none [] =
      (pageLoop pagesBoundary 86400000 0 (some "s1") ([] ++ (pagesBoundary none).map SigInfo.signature)).map
        (fun p => (p.1, p.2 + 1)) :=
  (pageLoopStopCharacterization pagesBoundary 86400000 0 none []).2.2 (by decide) (by decide)

/-! ### Claim C2 -/

/-- C2: the memo payload is the alternate marker `"second message"` exactly
when the scan returned `true`, and the original marker `"initial message"`
when it returned `false` or threw; and a scan error is recovered locally —
for every valid account and every network state the memo `POST` still
returns a 200 success envelope whose memo instruction carries the payload
chosen from the scan outcome (here the error branch, since the hardcoded
scan target always throws). -/
theorem memoPayloadRotationAndRecovery :
    (chooseMemoPayload (.ok true) = "second message")
    ∧ (chooseMemoPayload (.ok false) = "initial message")
    ∧ (∀ e : String, chooseMemoPayload (.error e) = "initial message")
    ∧ (∀ (rpc : Rpc) (nowMs : Int) (acct : String) (fuel : Nat),
        isValidPubkeyString acct = true →
        memoPOST rpc nowMs acct fuel =
          some ⟨200, .postPayload (createPostResponse
            ⟨[.computeBudgetSetPrice (intToFrac 1000),
              .memo (chooseMemoPayload (.error "Invalid public key input")) []],
             some acct, some rpc.latestBlockhash⟩
            "Post this memo on-chain"), true⟩) := by
  refine ⟨rfl, rfl, fun e => rfl, fun rpc nowMs acct fuel hacct => ?_⟩
  have hlit : isValidPubkeyString "YOUR_ACCOUNT_OR_PROGRAM_PUBLIC_KEY" = false := by decide
  simp only [memoPOST, checkForMessage, hlit, hacct, if_true, if_false, Bool.false_eq_true]

/-- C2 witness: the recovery branch at a concrete input. -/
theorem memoPayloadRotationAndRecoveryWitness :
    memoPOST rpcZero 0 sysAddr 0 =
      some ⟨200, .postPayload (createPostResponse
        ⟨[.computeBudgetSetPrice (intToFrac 1000),
          .memo (chooseMemoPayload (.error "Invalid public key input")) []],
         some sysAddr, some rpcZero.latestBlockhash⟩
        "Post this memo on-chain"), true⟩ :=
  memoPayloadRotationAndRecovery.2.2.2 rpcZero 0 sysAddr 0 (by decide)

/-! ### Claim C3 -/

/-- C3: the scan target baked into the memo `POST` is the placeholder
literal, which is not a valid base58 account identifier, so
`checkForMessage` always throws at the `PublicKey` construction and the
memo payload is always `"initial message"` — the `"second message"` branch
is unreachable for every request and every network state. -/
theorem memoScanTargetAlwaysInvalid :
    isValidPubkeyString "YOUR_ACCOUNT_OR_PROGRAM_PUBLIC_KEY" = false
    ∧ (∀ (rpc : Rpc) (nowMs : Int) (message : String) (batchSize fuel : Nat),
        checkForMessage rpc nowMs "YOUR_ACCOUNT_OR_PROGRAM_PUBLIC_KEY" message batchSize fuel
          = some (.error "Invalid public key input"))
    ∧ (∀ (rpc : Rpc) (nowMs : Int) (acct : String) (fuel : Nat),
        isValidPubkeyString acct = true →
        memoPOST rpc nowMs acct fuel =
          some ⟨200, .postPayload (createPostResponse
            ⟨[.computeBudgetSetPrice (intToFrac 1000), .memo "initial message" []],
             some acct, some rpc.latestBlockhash⟩
            "Post this memo on-chain"), true⟩) := by
  have hlit : isValidPubkeyString "YOUR_ACCOUNT_OR_PROGRAM_PUBLIC_KEY" = false := by decide
  refine ⟨hlit, fun rpc nowMs message batchSize fuel => ?_, fun rpc nowMs acct fuel hacct => ?_⟩
  · simp only [checkForMessage, hlit, Bool.false_eq_true, if_false]
  · simp only [memoPOST, checkForMessage, hlit, hacct, if_true, Bool.false_eq_true, if_false]
    rfl

/-- C3 witness: evaluated at a concrete account and network state. -/
theorem memoScanTargetAlwaysInvalidWitness :
    memoPOST rpcBig 1700000000000 sysAddr 3 =
      some ⟨200, .postPayload (createPostResponse
        ⟨[.computeBudgetSetPrice (intToFrac 1000), .memo "initial message" []],
         some sysAddr, some rpcBig.latestBlockhash⟩
        "Post this memo on-chain"), true⟩ :=
  memoScanTargetAlwaysInvalid.2.2 rpcBig 1700000000000 sysAddr 3 (by decide)

/-! ### Claim C5 -/

/-- C5 counterexample: an unparsable `amount` ("abc") yields `NaN`, and
`NaN <= 0` is false in JS, so validation does NOT fail: the validator
returns the `NaN` amount, the transfer `GET` answers 200, and the transfer
`POST` (with a zero minimum balance, since `NaN < min` is also false)
answers 200 as well — no 400 referencing `amount`. -/
theorem unparsableAmountCounterexample :
    parseFloat "abc" = none
    ∧ validatedQueryParams ⟨none, some "abc"⟩ = .ok (none, DEFAULT_SOL_ADDRESS)
    ∧ (transferGET "https://example.com" ⟨none, some "abc"⟩).status = 200
    ∧ (transferPOST rpcZero ⟨none, some "abc"⟩ sysAddr).status = 200 := by
  refine ⟨rfl, rfl, rfl, by decide⟩

/-- C5 (amended): for a present, nonempty `amount` query value, the
validator fails with the error naming `amount` exactly when the value
PARSES to a number less than or equal to zero (so `amount=0` and negative
amounts give a 400 naming `amount` in both `GET` and `POST`); an unparsable
value yields `NaN`, which passes the `<= 0` check and does not produce a
validation error. -/
theorem amountValidationCharacterization (a : String) (ha : a ≠ "") :
    (validatedQueryParams ⟨none, some a⟩ = .error "Invalid input query parameter: amount"
      ↔ jsLe (parseFloat a) (some (intToFrac 0)) = true)
    ∧ (∀ origin : String, jsLe (parseFloat a) (some (intToFrac 0)) = true →
        transferGET origin ⟨none, some a⟩ =
          ⟨400, .text "Invalid input query parameter: amount", true⟩)
    ∧ (∀ (rpc : Rpc) (acct : String), jsLe (parseFloat a) (some (intToFrac 0)) = true →
        transferPOST rpc ⟨none, some a⟩ acct =
          ⟨400, .text "Invalid input query parameter: amount", true⟩) := by
  have hval : validatedQueryParams ⟨none, some a⟩ =
      (if jsLe (parseFloat a) (some (intToFrac 0)) then
        Except.error "Invalid input query parameter: amount"
      else .ok (parseFloat a, DEFAULT_SOL_ADDRESS)) := by
    simp only [validatedQueryParams, if_neg ha]
  refine ⟨?_, fun origin hle => ?_, fun rpc acct hle => ?_⟩
  · constructor
    · intro herr
      by_contra hne
      rw [hval, if_neg (by simpa using hne)] at herr
      exact Except.noConfusion herr
    · intro hle
      rw [hval, if_pos hle]
  · simp only [transferGET, hval, hle, if_true]
  · simp only [transferPOST, hval, hle, if_true]

/-- C5 witness: the amended characterization applied at `amount=0` and a
negative amount. -/
theorem amountValidationCharacterizationWitness :
    validatedQueryParams ⟨none, some "0"⟩ = .error "Invalid input query parameter: amount"
    ∧ transferGET "https://example.com" ⟨none, some "-5"⟩ =
        ⟨400, .text "Invalid input query parameter: amount", true⟩
    ∧ transferPOST rpcZero ⟨none, some "0"⟩ sysAddr =
        ⟨400, .text "Invalid input query parameter: amount", true⟩ :=
  ⟨(amountValidationCharacterization "0" (by decide)).1.mpr (by decide),
   (amountValidationCharacterization "-5" (by decide)).2.1 "https://example.com" (by decide),
   (amountValidationCharacterization "0" (by decide)).2.2 rpcZero sysAddr (by decide)⟩

/-! ### Claim C6 -/

/-- C6: with a validated query and a valid caller account, the transfer
`POST` rejects with a 400 whose text names the destination exactly when
`amount * LAMPORTS_PER_SOL < minimumBalance` (the network-reported rent
floor for a zero-byte account); otherwise it proceeds and builds the
single-transfer transaction. -/
theorem rentExemptionCheck (rpc : Rpc) (q : Query) (acct : String)
    (amount : JsNum) (dest : String)
    (hq : validatedQueryParams q = .ok (amount, dest))
    (hacct : isValidPubkeyString acct = true) :
    (jsLt (jsMul amount (some LAMPORTS_PER_SOL)) (some (intToFrac rpc.minBalance)) = true →
      transferPOST rpc q acct =
        ⟨400, .text ("account may not be rent exempt: " ++ dest), true⟩)
    ∧ (jsLt (jsMul amount (some LAMPORTS_PER_SOL)) (some (intToFrac rpc.minBalance)) = false →
      transferPOST rpc q acct =
        ⟨200, .postPayload (createPostResponse
          ⟨[.systemTransfer acct dest (jsMul amount (some LAMPORTS_PER_SOL))],
           some acct, some rpc.latestBlockhash⟩
          ("Send " ++ jsNumToString amount ++ " SOL to " ++ dest)), true⟩) := by
  refine ⟨fun hlt => ?_, fun hge => ?_⟩
  · simp only [transferPOST, hq, hacct, hlt, if_true]
  · simp only [transferPOST, hq, hacct, hge, if_true, Bool.false_eq_true, if_false]

/-- C6 witness: the default `0.1` SOL transfer against a `10^18`-lamport
rent floor is rejected naming the destination; against a zero floor it
proceeds to the transfer draft. -/
theorem rentExemptionCheckWitness :
    transferPOST rpcBig ⟨none, none⟩ sysAddr =
      ⟨400, .text ("account may not be rent exempt: " ++ DEFAULT_SOL_ADDRESS), true⟩
    ∧ transferPOST rpcZero ⟨none, none⟩ sysAddr =
      ⟨200, .postPayload (createPostResponse
        ⟨[.systemTransfer sysAddr DEFAULT_SOL_ADDRESS
            (jsMul (some DEFAULT_SOL_AMOUNT) (some LAMPORTS_PER_SOL))],
         some sysAddr, some rpcZero.latestBlockhash⟩
        ("Send " ++ jsNumToString (some DEFAULT_SOL_AMOUNT) ++ " SOL to " ++ DEFAULT_SOL_ADDRESS)),
       true⟩ :=
  ⟨(rentExemptionCheck rpcBig ⟨none, none⟩ sysAddr (some DEFAULT_SOL_AMOUNT)
      DEFAULT_SOL_ADDRESS rfl (by decide)).1 (by decide),
   (rentExemptionCheck rpcZero ⟨none, none⟩ sysAddr (some DEFAULT_SOL_AMOUNT)
      DEFAULT_SOL_ADDRESS rfl (by decide)).2 (by decide)⟩

/-! ### Claim C7 -/

/-- C7 counterexample: a request whose body account is malformed but whose
query parameter `to` is also malformed gets the query-validation 400
(`Invalid input query parameter: to`), not `Invalid "account" provided`,
because the transfer `POST` validates the query before the body. -/
theorem invalidAccountPreemptedCounterexample :
    isValidPubkeyString "not_a_key" = false
    ∧ transferPOST rpcZero ⟨some "not_a_key", none⟩ "not_a_key" =
        ⟨400, .text "Invalid input query parameter: to", true⟩
    ∧ (transferPOST rpcZero ⟨some "not_a_key", none⟩ "not_a_key").body ≠
        .text "Invalid \"account\" provided" := by
  refine ⟨by decide, by decide, by decide⟩

/-- C7 (amended): a malformed body account yields status 400 with exactly
the body `Invalid "account" provided` — unconditionally for the memo
provider, and for the transfer provider provided the query parameters
validate (query validation runs first and its error takes precedence). -/
theorem invalidAccountResponse :
    (∀ (rpc : Rpc) (nowMs : Int) (acct : String) (fuel : Nat),
      isValidPubkeyString acct = false →
      memoPOST rpc nowMs acct fuel = some ⟨400, .text "Invalid \"account\" provided", true⟩)
    ∧ (∀ (rpc : Rpc) (q : Query) (acct : String) (pr : JsNum × String),
      validatedQueryParams q = .ok pr →
      isValidPubkeyString acct = false →
      transferPOST rpc q acct = ⟨400, .text "Invalid \"account\" provided", true⟩) := by
  refine ⟨fun rpc nowMs acct fuel hacct => ?_, fun rpc q acct pr hq hacct => ?_⟩
  · simp only [memoPOST, hacct, Bool.false_eq_true, if_false]
  · cases pr with
    | mk amount dest => simp only [transferPOST, hq, hacct, Bool.false_eq_true, if_false]

/-- C7 witness: both providers at a concrete malformed account. -/
theorem invalidAccountResponseWitness :
    memoPOST rpcZero 0 "not_a_key" 0 =
      some ⟨400, .text "Invalid \"account\" provided", true⟩
    ∧ transferPOST rpcZero ⟨none, none⟩ "not_a_key" =
      ⟨400, .text "Invalid \"account\" provided", true⟩ :=
  ⟨invalidAccountResponse.1 rpcZero 0 "not_a_key" 0 (by decide),
   invalidAccountResponse.2 rpcZero ⟨none, none⟩ "not_a_key"
     (some DEFAULT_SOL_AMOUNT, DEFAULT_SOL_ADDRESS) rfl (by decide)⟩

/-! ### Claim C8 -/

/-- C8: every transaction draft handed to `createPostResponse` contains at
least one non-memo instruction: the memo `POST` always builds the draft as
the priority-fee instruction (compute-unit price 1000 microlamports)
followed by the memo instruction with no signing keys, and every draft the
transfer `POST` serializes consists of a single system transfer. -/
theorem draftsHaveNonMemoInstruction :
    (∀ (rpc : Rpc) (nowMs : Int) (acct : String) (fuel : Nat) (r : HttpResponse) (tx : Transaction),
      memoPOST rpc nowMs acct fuel = some r → r.draftOf = some tx →
      (∃ d, tx.instructions = [.computeBudgetSetPrice (intToFrac 1000), .memo d []])
      ∧ ∃ i ∈ tx.instructions, i.isMemoInstr = false)
    ∧ (∀ (rpc : Rpc) (q : Query) (acct : String) (tx : Transaction),
      (transferPOST rpc q acct).draftOf = some tx →
      (∃ dest lam, tx.instructions = [.systemTransfer acct dest lam])
      ∧ ∃ i ∈ tx.instructions, i.isMemoInstr = false) := by
  constructor
  · intro rpc nowMs acct fuel r tx hpost hdraft
    by_cases hacct : isValidPubkeyString acct = true
    · rw [memoPOST, if_pos hacct] at hpost
      cases hc : checkForMessage rpc nowMs "YOUR_ACCOUNT_OR_PROGRAM_PUBLIC_KEY"
          "initial message" 100 fuel with
      | none => rw [hc] at hpost; exact Option.noConfusion hpost
      | some sr =>
        rw [hc] at hpost
        injection hpost with hr
        subst hr
        simp only [HttpResponse.draftOf, createPostResponse] at hdraft
        injection hdraft with htx
        subst htx
        exact ⟨⟨chooseMemoPayload sr, rfl⟩,
          ⟨.computeBudgetSetPrice (intToFrac 1000), by simp [Instruction.isMemoInstr]⟩⟩
    · rw [memoPOST, if_neg hacct] at hpost
      injection hpost with hr
      subst hr
      simp only [HttpResponse.draftOf] at hdraft
      exact Option.noConfusion hdraft
  · intro rpc q acct tx hdraft
    rw [transferPOST] at hdraft
    cases hq : validatedQueryParams q with
    | error e =>
      rw [hq] at hdraft
      simp only [HttpResponse.draftOf] at hdraft
      exact Option.noConfusion hdraft
    | ok pr =>
      rw [hq] at hdraft
      cases pr with
      | mk amount dest =>
        dsimp only at hdraft
        by_cases hacct : isValidPubkeyString acct = true
        · rw [if_pos hacct] at hdraft
          by_cases hlt : jsLt (jsMul amount (some LAMPORTS_PER_SOL))
              (some (intToFrac rpc.minBalance)) = true
          · rw [if_pos hlt] at hdraft
            simp only [HttpResponse.draftOf] at hdraft
            exact Option.noConfusion hdraft
          · rw [if_neg hlt] at hdraft
            simp only [HttpResponse.draftOf, createPostResponse] at hdraft
            injection hdraft with htx
            subst htx
            exact ⟨⟨dest, jsMul amount (some LAMPORTS_PER_SOL), rfl⟩,
              ⟨.systemTransfer acct dest (jsMul amount (some LAMPORTS_PER_SOL)),
                by simp [Instruction.isMemoInstr]⟩⟩
        · rw [if_neg hacct] at hdraft
          simp only [HttpResponse.draftOf] at hdraft
          exact Option.noConfusion hdraft

/-- C8 witness: the memo and transfer drafts at a concrete input. -/
theorem draftsHaveNonMemoInstructionWitness :
    ((∃ d, ([Instruction.computeBudgetSetPrice (intToFrac 1000), .memo "initial message" []]
        : List Instruction) = [.computeBudgetSetPrice (intToFrac 1000), .memo d []])
      ∧ ∃ i ∈ ([Instruction.computeBudgetSetPrice (intToFrac 1000),
          .memo "initial message" []] : List Instruction), i.isMemoInstr = false)
    ∧ ((∃ dest lam, ([Instruction.systemTransfer sysAddr DEFAULT_SOL_ADDRESS
          (jsMul (some DEFAULT_SOL_AMOUNT) (some LAMPORTS_PER_SOL))] : List Instruction)
            = [.systemTransfer sysAddr dest lam])
      ∧ ∃ i ∈ ([Instruction.systemTransfer sysAddr DEFAULT_SOL_ADDRESS
          (jsMul (some DEFAULT_SOL_AMOUNT) (some LAMPORTS_PER_SOL))] : List Instruction),
            i.isMemoInstr = false) :=
  ⟨draftsHaveNonMemoInstruction.1 rpcZero 0 sysAddr 0
      ⟨200, .postPayload (createPostResponse
        ⟨[.computeBudgetSetPrice (intToFrac 1000), .memo "initial message" []],
         some sysAddr, some "FIXEDBLOCKHASH"⟩ "Post this memo on-chain"), true⟩
      ⟨[.computeBudgetSetPrice (intToFrac 1000), .memo "initial message" []],
       some sysAddr, some "FIXEDBLOCKHASH"⟩
      (by decide) rfl,
   draftsHaveNonMemoInstruction.2 rpcZero ⟨none, none⟩ sysAddr
      ⟨[.systemTransfer sysAddr DEFAULT_SOL_ADDRESS
          (jsMul (some DEFAULT_SOL_AMOUNT) (some LAMPORTS_PER_SOL))],
       some sysAddr, some "FIXEDBLOCKHASH"⟩
      (by decide)⟩

/-! ### Claim C9 -/

/-- C9: every response produced by any handler of either provider —
success and all error responses alike — carries the `ACTIONS_CORS_HEADERS`
headers (the `OPTIONS` handlers are aliases of the respective `GET`s). -/
theorem allResponsesCarryCors :
    (∀ origin : String, (memoGET origin).cors = true)
    ∧ (∀ (rpc : Rpc) (nowMs : Int) (acct : String) (fuel : Nat) (r : HttpResponse),
        memoPOST rpc nowMs acct fuel = some r → r.cors = true)
    ∧ (∀ (origin : String) (q : Query), (transferGET origin q).cors = true)
    ∧ (∀ (rpc : Rpc) (q : Query) (acct : String), (transferPOST rpc q acct).cors = true) := by
  refine ⟨fun origin => rfl, fun rpc nowMs acct fuel r hpost => ?_, fun origin q => ?_,
    fun rpc q acct => ?_⟩
  · by_cases hacct : isValidPubkeyString acct = true
    · rw [memoPOST, if_pos hacct] at hpost
      cases hc : checkForMessage rpc nowMs "YOUR_ACCOUNT_OR_PROGRAM_PUBLIC_KEY"
          "initial message" 100 fuel with
      | none => rw [hc] at hpost; exact Option.noConfusion hpost
      | some sr =>
        rw [hc] at hpost
        injection hpost with hr
        subst hr
        rfl
    · rw [memoPOST, if_neg hacct] at hpost
      injection hpost with hr
      subst hr
      rfl
  · rw [transferGET]
    cases validatedQueryParams q with
    | error e => rfl
    | ok pr => cases pr with
      | mk amount dest => rfl
  · rw [transferPOST]
    cases validatedQueryParams q with
    | error e => rfl
    | ok pr =>
      cases pr with
      | mk amount dest =>
        dsimp only
        by_cases hacct : isValidPubkeyString acct = true
        · rw [if_pos hacct]
          by_cases hlt : jsLt (jsMul amount (some LAMPORTS_PER_SOL))
              (some (intToFrac rpc.minBalance)) = true
          · rw [if_pos hlt]
          · rw [if_neg hlt]
        · rw [if_neg hacct]

/-- C9 witness: the memo `POST` conjunct applied at a concrete response. -/
theorem allResponsesCarryCorsWitness :
    (⟨400, RespBody.text "Invalid \"account\" provided", true⟩ : HttpResponse).cors = true :=
  allResponsesCarryCors.2.1 rpcZero 0 "not a key" 0
    ⟨400, .text "Invalid \"account\" provided", true⟩ (by decide)

/-! ### Claim C10 -/

/-- C10: both `GET` handlers are pure functions of the request URL: the
memo metadata is fully determined (its only origin-dependent field is the
icon URL), and the transfer metadata for a validated query is fully
determined by the origin and the query's destination, with payloads for the
same query agreeing across origins on the title, description, label, action
labels and action parameters — only the icon URL and the action hrefs track
the request origin. -/
theorem getMetadataDeterministic :
    (∀ origin : String, memoGET origin =
      ⟨200, .getPayload ⟨"Actions Example - Simple On-chain Memo",
        urlFromOrigin origin "/bun_blink.webp", "Send a message on-chain using a Memo",
        "Send Memo", none⟩, true⟩)
    ∧ (∀ (origin : String) (q : Query) (amount : JsNum) (dest : String),
        validatedQueryParams q = .ok (amount, dest) →
        transferGET origin q = ⟨200, .getPayload (transferMetadata origin dest), true⟩)
    ∧ (∀ o1 o2 dest : String,
        (transferMetadata o1 dest).title = (transferMetadata o2 dest).title
        ∧ (transferMetadata o1 dest).description = (transferMetadata o2 dest).description
        ∧ (transferMetadata o1 dest).label = (transferMetadata o2 dest).label
        ∧ (transferMetadata o1 dest).links.map (fun l => l.map ActionLinkedAction.label)
            = (transferMetadata o2 dest).links.map (fun l => l.map ActionLinkedAction.label)
        ∧ (transferMetadata o1 dest).links.map (fun l => l.map ActionLinkedAction.parameters)
            = (transferMetadata o2 dest).links.map (fun l => l.map ActionLinkedAction.parameters)) := by
  refine ⟨fun origin => rfl, fun origin q amount dest hq => ?_, fun o1 o2 dest => ?_⟩
  · simp only [transferGET, hq]
  · exact ⟨rfl, rfl, rfl, rfl, rfl⟩

/-- C10 witness: the transfer conjunct applied to the default query. -/
theorem getMetadataDeterministicWitness :
    transferGET "https://example.com" ⟨none, none⟩ =
      ⟨200, .getPayload (transferMetadata "https://example.com" DEFAULT_SOL_ADDRESS), true⟩ :=
  getMetadataDeterministic.2.1 "https://example.com" ⟨none, none⟩
    (some DEFAULT_SOL_AMOUNT) DEFAULT_SOL_ADDRESS rfl

end SolanaActions
